import Mathlib

/-!
Shallow embedding of the contact-form Lambda handler from
`src/lambda/index.js` of the portfolio-2.0-cdk repository.

The handler is a straight-line pipeline: CORS preflight short-circuit,
credential retrieval from a secret store, body parsing, validation, and
email dispatch, with a single try/catch converting every failure to a
500 response.

Modelling choices:
- JavaScript values are modelled by `JSValue` (undefined, null, booleans,
  numbers as `Int`, strings, and objects as association lists).  Arrays do
  not occur in any behaviour under verification and are omitted from the
  value universe.
- Exceptions are modelled with `Except JsError`; the platform collaborators
  (the secret store `getSecretValue`, the email API `resendSend`) and the
  runtime primitive `JSON.parse` are fields of a `Runtime` record, each an
  arbitrary function returning `Except`, since their internals are outside
  this repository.
- The response body is kept as the record that the source passes to
  `JSON.stringify` (a message and an optional stringified error).
- Side effects on the collaborators are recorded in a `Trace`: the secret
  names fetched, the number of calls to `parseEventBody`, and the email
  payloads submitted to the email API.
-/

namespace ContactHandler

/-- JavaScript runtime values reaching the handler. Numbers are modelled
as integers; only their truthiness is relevant to the handler. -/
inductive JSValue where
  | undefined : JSValue
  | null : JSValue
  | bool : Bool → JSValue
  | num : Int → JSValue
  | str : String → JSValue
  | obj : List (String × JSValue) → JSValue

/-- The JavaScript `typeof` operator on the modelled values.
Note `typeof null` is `"object"` in JavaScript. -/
def typeofJS : JSValue → String
  | .undefined => "undefined"
  | .null => "object"
  | .bool _ => "boolean"
  | .num _ => "number"
  | .str _ => "string"
  | .obj _ => "object"

/-- JavaScript truthiness of a value (`!v` in the source is `!truthy v`). -/
def truthy : JSValue → Bool
  | .undefined => false
  | .null => false
  | .bool b => b
  | .num n => n != 0
  | .str s => s != ""
  | .obj _ => true

/-- First-match lookup in an object literal (keys are assumed unique). -/
def lookupProp : List (String × JSValue) → String → JSValue
  | [], _ => .undefined
  | (k, v) :: rest, key => if k = key then v else lookupProp rest key

/-- Property access `v.key` as used by the destructuring in the source:
an object yields its property (or undefined), a primitive has none of the
accessed properties. Access on null/undefined is guarded separately. -/
def getProp : JSValue → String → JSValue
  | .obj fields, key => lookupProp fields key
  | _, _ => .undefined

/-- JavaScript string conversion, as applied by template-literal
interpolation in the email body. -/
def jsToString : JSValue → String
  | .undefined => "undefined"
  | .null => "null"
  | .bool b => if b then "true" else "false"
  | .num n => toString n
  | .str s => s
  | .obj _ => "[object Object]"

/-- Thrown JavaScript errors: `new Error(msg)`, runtime `TypeError`s, and
errors propagated from a collaborator (already carried as their string
rendering). -/
inductive JsError where
  | jsError : String → JsError
  | typeError : String → JsError
  | external : String → JsError

/-- `error.toString()` as used by `createResponse`. -/
def JsError.render : JsError → String
  | .jsError msg => "Error: " ++ msg
  | .typeError msg => "TypeError: " ++ msg
  | .external s => s

/-- The outbound email message built by `sendEmail`. -/
structure EmailPayload where
  fromAddr : String
  toAddr : String
  subject : String
  html : String

/-- The execution environment of one invocation: the `JSON.parse` runtime
primitive, the `RESEND_API_KEY_SECRET_NAME` environment variable (none
when unset), the secret store, and the email API keyed by the fetched
credential. -/
structure Runtime where
  jsonParse : String → Except JsError JSValue
  resendApiKeySecretName : Option String
  getSecretValue : String → Except JsError String
  resendSend : String → EmailPayload → Except JsError String

/-- An inbound HTTP request event, as the spec's trigger interface defines
it: a header map, `requestContext.http.method`, and a body value. -/
structure Event where
  headers : List (String × String)
  method : String
  body : JSValue

/-- Case-sensitive header lookup, `event.headers.key`. -/
def headerLookup : List (String × String) → String → Option String
  | [], _ => none
  | (k, v) :: rest, key => if k = key then some v else headerLookup rest key

/-- JavaScript `a || b` on two possibly-undefined strings. -/
def jsOrString (a b : Option String) : Option String :=
  match a with
  | some s => if s = "" then b else some s
  | none => b

/-- The body the source hands to `JSON.stringify`:
`{ message, ...(error && { error: error.toString() }) }`. -/
structure ResponseBody where
  message : String
  error : Option String

/-- An HTTP response produced by the handler. -/
structure Response where
  statusCode : Nat
  headers : List (String × String)
  body : ResponseBody

/-- Calls made to the collaborators during one invocation: secret names
fetched from the secret store, number of `parseEventBody` invocations, and
payloads submitted to the email API. -/
structure Trace where
  secretFetches : List String
  parseAttempts : Nat
  emailCalls : List EmailPayload

/-- `getResendApiKey` from the source: fail when the environment variable
is unset (or empty, which is falsy), otherwise fetch the secret value from
the secret store, propagating its failure. Also returns the list of fetch
calls made. -/
def getResendApiKey (rt : Runtime) : Except JsError String × List String :=
  match rt.resendApiKeySecretName with
  | none =>
      (.error (.jsError "RESEND_API_KEY_SECRET_NAME is not set in the environment variables"), [])
  | some secretName =>
      if secretName = "" then
        (.error (.jsError "RESEND_API_KEY_SECRET_NAME is not set in the environment variables"), [])
      else
        match rt.getSecretValue secretName with
        | .ok secret => (.ok secret, [secretName])
        | .error e => (.error e, [secretName])

/-- `parseEventBody` from the source, dispatching on `typeof event.body`:
a string is handed to `JSON.parse`; an object (including `null`, whose
`typeof` is `"object"`) is returned directly; any other shape throws
`Error("Invalid event body")`. -/
def parseEventBody (rt : Runtime) (event : Event) : Except JsError JSValue :=
  match event.body with
  | .str s => rt.jsonParse s
  | .null => .ok .null
  | .obj fields => .ok (.obj fields)
  | _ => .error (.jsError "Invalid event body")

/-- `validateBody` from the source: destructure `name`, `email`, `message`
(destructuring `null`/`undefined` throws a `TypeError`), then throw
`Error("Missing required fields")` when any of the three is falsy;
otherwise return the body unchanged. -/
def validateBody (body : JSValue) : Except JsError JSValue :=
  match body with
  | .null => .error (.typeError "Cannot destructure property name of null")
  | .undefined => .error (.typeError "Cannot destructure property name of undefined")
  | _ =>
      if !truthy (getProp body "name") || !truthy (getProp body "email")
          || !truthy (getProp body "message") then
        .error (.jsError "Missing required fields")
      else
        .ok body

/-- The HTML body of the outbound email, interpolated from the request
fields exactly as the source template literal does (whitespace of the
template is not reproduced byte for byte). -/
def emailHtml (name email message : JSValue) : String :=
  "<h1>" ++ jsToString name ++ " contacted you through your portfolio contact form.</h1>"
    ++ "<p><strong>Name:</strong> " ++ jsToString name ++ "</p>"
    ++ "<p><strong>Email:</strong> " ++ jsToString email ++ "</p>"
    ++ "<p><strong>Message:</strong> " ++ jsToString message ++ "</p>"

/-- The fixed-sender, fixed-recipient, fixed-subject payload `sendEmail`
builds from a validated body. -/
def emailPayloadOf (v : JSValue) : EmailPayload :=
  ⟨"portfoliocontact@resend.dev", "fialloschris1@gmail.com",
   "New Contact Form Submission",
   emailHtml (getProp v "name") (getProp v "email") (getProp v "message")⟩

/-- `sendEmail` from the source: build the payload and submit it to the
email API with the fetched credential, returning its result and recording
the call. -/
def sendEmail (rt : Runtime) (key : String) (v : JSValue) :
    Except JsError String × List EmailPayload :=
  (rt.resendSend key (emailPayloadOf v), [emailPayloadOf v])

/-- `createResponse` from the source: a status code, the two fixed CORS
headers, and a JSON body with the message and, when an error is present,
its string rendering. The `origin` parameter is accepted and ignored,
exactly as in the source. -/
def createResponse (statusCode : Nat) (message : String) (error : Option JsError)
    (origin : Option String) : Response :=
  ⟨statusCode,
   [("Access-Control-Allow-Headers", "Content-Type"),
    ("Access-Control-Allow-Methods", "POST, OPTIONS")],
   ⟨message, error.map JsError.render⟩⟩

/-- The exported `handler` from the source: extract the origin header,
short-circuit `OPTIONS` preflight requests, then run secret fetch, body
parse, validation and dispatch inside a try/catch that converts every
failure to a 500 response. Returns the response together with the trace
of collaborator calls. -/
def handler (rt : Runtime) (event : Event) : Response × Trace :=
  let origin := jsOrString (headerLookup event.headers "origin")
      (headerLookup event.headers "Origin")
  if event.method = "OPTIONS" then
    (createResponse 200 "Preflight request successful" none origin, ⟨[], 0, []⟩)
  else
    match getResendApiKey rt with
    | (.error e, fetches) =>
        (createResponse 500 "Internal server error" (some e) origin, ⟨fetches, 0, []⟩)
    | (.ok key, fetches) =>
        match parseEventBody rt event with
        | .error e =>
            (createResponse 500 "Internal server error" (some e) origin, ⟨fetches, 1, []⟩)
        | .ok body =>
            match validateBody body with
            | .error e =>
                (createResponse 500 "Internal server error" (some e) origin, ⟨fetches, 1, []⟩)
            | .ok validatedBody =>
                match sendEmail rt key validatedBody with
                | (.ok _, calls) =>
                    (createResponse 200 "Email sent successfully" none origin,
                     ⟨fetches, 1, calls⟩)
                | (.error e, calls) =>
                    (createResponse 500 "Internal server error" (some e) origin,
                     ⟨fetches, 1, calls⟩)

/-! Concrete fixtures used by the witness theorems. -/

/-- A runtime with the secret name configured, a working secret store and
email API, and a `JSON.parse` that rejects its input (the concrete inputs
fed to it below are malformed). -/
def rtGood : Runtime :=
  ⟨fun _ => .error (.jsError "Unexpected token o in JSON"),
   some "resend-api-key",
   fun _ => .ok "re_testkey",
   fun _ _ => .ok "email-id-1"⟩

/-- A runtime whose secret-name environment variable is unset. -/
def rtNoEnv : Runtime :=
  ⟨fun _ => .error (.jsError "Unexpected token o in JSON"),
   none,
   fun _ => .ok "re_testkey",
   fun _ _ => .ok "email-id-1"⟩

/-- An `OPTIONS` preflight request carrying a junk body. -/
def evOptions : Event :=
  ⟨[("origin", "https://example.com")], "OPTIONS", .num 42⟩

/-- A valid contact-form POST with non-empty string fields. -/
def evValid : Event :=
  ⟨[("origin", "https://example.com")], "POST",
   .obj [("name", .str "Alice"), ("email", .str "a@example.com"),
         ("message", .str "hi")]⟩

/-- A POST whose body omits the `message` field. -/
def evMissingField : Event :=
  ⟨[], "POST", .obj [("name", .str "Alice"), ("email", .str "a@example.com")]⟩

/-- A POST whose body is the number 42 (neither a string nor an object). -/
def evNum : Event :=
  ⟨[], "POST", .num 42⟩

/-- A POST whose body is a malformed JSON string. -/
def evBadJson : Event :=
  ⟨[], "POST", .str "\x7bnot json"⟩

/-- A POST whose body is `null`. -/
def evNull : Event :=
  ⟨[], "POST", .null⟩

/-- A POST whose body has truthy non-string fields. -/
def evTruthyNums : Event :=
  ⟨[], "POST",
   .obj [("name", .num 1), ("email", .num 42), ("message", .bool true)]⟩

/-! Helper lemmas shared by several claims. -/

/-- The secret fetch succeeds when the environment variable holds a
non-empty name and the store returns the secret. -/
theorem getResendApiKey_ok (rt : Runtime) (n key : String)
    (hname : rt.resendApiKeySecretName = some n) (hne : n ≠ "")
    (hsec : rt.getSecretValue n = .ok key) :
    getResendApiKey rt = (.ok key, [n]) := by
  unfold getResendApiKey
  rw [hname]
  simp [hne, hsec]

/-- `validateBody` fails whenever one of the three destructured fields is
falsy. -/
theorem validateBody_error_of_missing (body : JSValue)
    (h : truthy (getProp body "name") = false ∨ truthy (getProp body "email") = false
        ∨ truthy (getProp body "message") = false) :
    ∃ e, validateBody body = .error e := by
  cases body with
  | null => exact ⟨_, rfl⟩
  | undefined => exact ⟨_, rfl⟩
  | bool b =>
      refine ⟨.jsError "Missing required fields", ?_⟩
      unfold validateBody
      rcases h with h | h | h <;> simp [h]
  | num n =>
      refine ⟨.jsError "Missing required fields", ?_⟩
      unfold validateBody
      rcases h with h | h | h <;> simp [h]
  | str s =>
      refine ⟨.jsError "Missing required fields", ?_⟩
      unfold validateBody
      rcases h with h | h | h <;> simp [h]
  | obj fields =>
      refine ⟨.jsError "Missing required fields", ?_⟩
      unfold validateBody
      rcases h with h | h | h <;> simp [h]

/-- On a non-OPTIONS request, a parse failure ends in a 500 response with
no email call, whatever the secret store did. -/
theorem handler_500_of_parse_error (rt : Runtime) (ev : Event) (e : JsError)
    (hm : ev.method ≠ "OPTIONS") (hp : parseEventBody rt ev = .error e) :
    (handler rt ev).1.statusCode = 500 ∧ (handler rt ev).2.emailCalls = [] := by
  unfold handler
  simp only [hm, if_false]
  rcases hkey : getResendApiKey rt with ⟨res, fetches⟩
  cases res with
  | error e' => simp [createResponse]
  | ok key => simp [hp, createResponse]

/-! Claim theorems. -/

/-- C1: For every inbound HTTP request event and every runtime, the
handler returns exactly one HTTP response (it is a total function into
`Response`), and every response is either a 200 success carrying no error
field or a 500 carrying a stringified error: every internal failure is
caught and converted to a 500 response. -/
theorem handler_total_failures_become_500 (rt : Runtime) (ev : Event) :
    ((handler rt ev).1.statusCode = 200 ∧ (handler rt ev).1.body.error = none) ∨
    ((handler rt ev).1.statusCode = 500 ∧ (handler rt ev).1.body.error ≠ none) := by
  unfold handler
  split
  · exact Or.inl ⟨rfl, rfl⟩
  · rcases hkey : getResendApiKey rt with ⟨res, fetches⟩
    cases res with
    | error e => right; simp [createResponse]
    | ok key =>
        cases hp : parseEventBody rt ev with
        | error e => right; simp [hp, createResponse]
        | ok body =>
            cases hv : validateBody body with
            | error e => right; simp [hp, hv, createResponse]
            | ok vb =>
                rcases hs : sendEmail rt key vb with ⟨sres, calls⟩
                cases sres with
                | ok r => left; simp [hp, hv, hs, createResponse]
                | error e => right; simp [hp, hv, hs, createResponse]

/-- C2: Every `OPTIONS` request, whatever its body, gets a 200 response
with message "Preflight request successful" and no error field, and the
secret store is never queried, the body is never parsed, and the email
API is never called. -/
theorem handler_options_preflight (rt : Runtime) (ev : Event)
    (h : ev.method = "OPTIONS") :
    (handler rt ev).1.statusCode = 200 ∧
    (handler rt ev).1.body.message = "Preflight request successful" ∧
    (handler rt ev).1.body.error = none ∧
    (handler rt ev).2.secretFetches = [] ∧
    (handler rt ev).2.parseAttempts = 0 ∧
    (handler rt ev).2.emailCalls = [] := by
  unfold handler
  simp [h, createResponse]

/-- Witness for C2 at a concrete OPTIONS request with a junk numeric
body. -/
theorem handler_options_preflight_witness :
    evOptions.method = "OPTIONS" ∧
    ((handler rtGood evOptions).1.statusCode = 200 ∧
     (handler rtGood evOptions).1.body.message = "Preflight request successful" ∧
     (handler rtGood evOptions).1.body.error = none ∧
     (handler rtGood evOptions).2.secretFetches = [] ∧
     (handler rtGood evOptions).2.parseAttempts = 0 ∧
     (handler rtGood evOptions).2.emailCalls = []) :=
  ⟨rfl, handler_options_preflight rtGood evOptions rfl⟩

/-- C3: When the secret-name environment variable is unset, every
non-OPTIONS request gets a 500 response, the body is never parsed, and
the email API is never called. -/
theorem handler_unset_secret_name (rt : Runtime) (ev : Event)
    (hname : rt.resendApiKeySecretName = none) (hm : ev.method ≠ "OPTIONS") :
    (handler rt ev).1.statusCode = 500 ∧
    (handler rt ev).2.parseAttempts = 0 ∧
    (handler rt ev).2.emailCalls = [] := by
  unfold handler getResendApiKey
  rw [hname]
  simp [hm, createResponse]

/-- Witness for C3 at a concrete POST with the environment variable
unset. -/
theorem handler_unset_secret_name_witness :
    rtNoEnv.resendApiKeySecretName = none ∧ evValid.method ≠ "OPTIONS" ∧
    ((handler rtNoEnv evValid).1.statusCode = 500 ∧
     (handler rtNoEnv evValid).2.parseAttempts = 0 ∧
     (handler rtNoEnv evValid).2.emailCalls = []) :=
  ⟨rfl, by decide, handler_unset_secret_name rtNoEnv evValid rfl (by decide)⟩

/-- On a non-OPTIONS request with a configured, working secret store, a
body parsing to an object with non-empty string fields, and a successful
dispatch, the handler result is the 200 success response with exactly one
email call. Shared by the success-path claims. -/
theorem handler_valid_request_eq (rt : Runtime) (ev : Event)
    (n key r : String) (fields : List (String × JSValue)) (s1 s2 s3 : String)
    (hm : ev.method ≠ "OPTIONS")
    (hname : rt.resendApiKeySecretName = some n) (hne : n ≠ "")
    (hsec : rt.getSecretValue n = .ok key)
    (hp : parseEventBody rt ev = .ok (.obj fields))
    (h1 : lookupProp fields "name" = .str s1) (h1n : s1 ≠ "")
    (h2 : lookupProp fields "email" = .str s2) (h2n : s2 ≠ "")
    (h3 : lookupProp fields "message" = .str s3) (h3n : s3 ≠ "")
    (hsend : rt.resendSend key (emailPayloadOf (.obj fields)) = .ok r) :
    handler rt ev =
      (createResponse 200 "Email sent successfully" none
        (jsOrString (headerLookup ev.headers "origin")
          (headerLookup ev.headers "Origin")),
       ⟨[n], 1, [emailPayloadOf (.obj fields)]⟩) := by
  have hkey := getResendApiKey_ok rt n key hname hne hsec
  have hv : validateBody (.obj fields) = .ok (.obj fields) := by
    unfold validateBody
    simp [getProp, h1, h2, h3, truthy, h1n, h2n, h3n]
  unfold handler
  simp [hm, hkey, hp, hv, sendEmail, hsend]

/-- C4: For every non-OPTIONS request whose body parses to an object with
non-empty string `name`, `email` and `message` fields, when the secret
fetch and the email dispatch both succeed, the handler returns a 200
response with message "Email sent successfully". -/
theorem handler_valid_request_success (rt : Runtime) (ev : Event)
    (n key r : String) (fields : List (String × JSValue)) (s1 s2 s3 : String)
    (hm : ev.method ≠ "OPTIONS")
    (hname : rt.resendApiKeySecretName = some n) (hne : n ≠ "")
    (hsec : rt.getSecretValue n = .ok key)
    (hp : parseEventBody rt ev = .ok (.obj fields))
    (h1 : lookupProp fields "name" = .str s1) (h1n : s1 ≠ "")
    (h2 : lookupProp fields "email" = .str s2) (h2n : s2 ≠ "")
    (h3 : lookupProp fields "message" = .str s3) (h3n : s3 ≠ "")
    (hsend : rt.resendSend key (emailPayloadOf (.obj fields)) = .ok r) :
    (handler rt ev).1.statusCode = 200 ∧
    (handler rt ev).1.body.message = "Email sent successfully" ∧
    (handler rt ev).1.body.error = none := by
  rw [handler_valid_request_eq rt ev n key r fields s1 s2 s3 hm hname hne hsec hp
    h1 h1n h2 h2n h3 h3n hsend]
  exact ⟨rfl, rfl, rfl⟩

/-- Witness for C4 at the concrete valid request and working runtime. -/
theorem handler_valid_request_success_witness :
    evValid.method ≠ "OPTIONS" ∧
    rtGood.resendApiKeySecretName = some "resend-api-key" ∧
    rtGood.getSecretValue "resend-api-key" = .ok "re_testkey" ∧
    parseEventBody rtGood evValid =
      .ok (.obj [("name", .str "Alice"), ("email", .str "a@example.com"),
                 ("message", .str "hi")]) ∧
    ((handler rtGood evValid).1.statusCode = 200 ∧
     (handler rtGood evValid).1.body.message = "Email sent successfully" ∧
     (handler rtGood evValid).1.body.error = none) :=
  ⟨by decide, rfl, rfl, rfl,
   handler_valid_request_success rtGood evValid "resend-api-key" "re_testkey"
     "email-id-1"
     [("name", .str "Alice"), ("email", .str "a@example.com"),
      ("message", .str "hi")]
     "Alice" "a@example.com" "hi" (by decide) rfl (by decide) rfl rfl rfl
     (by decide) rfl (by decide) rfl (by decide) rfl⟩

/-- C5: For every non-OPTIONS request whose parsed body has a falsy (in
particular missing) `name`, `email` or `message` field, the handler
returns a 500 response whose body carries an error field, and the email
API is not called. -/
theorem handler_missing_fields_500 (rt : Runtime) (ev : Event) (body : JSValue)
    (hm : ev.method ≠ "OPTIONS")
    (hp : parseEventBody rt ev = .ok body)
    (hmiss : truthy (getProp body "name") = false
        ∨ truthy (getProp body "email") = false
        ∨ truthy (getProp body "message") = false) :
    (handler rt ev).1.statusCode = 500 ∧
    (handler rt ev).1.body.error ≠ none ∧
    (handler rt ev).2.emailCalls = [] := by
  obtain ⟨e, hv⟩ := validateBody_error_of_missing body hmiss
  unfold handler
  rcases hkey : getResendApiKey rt with ⟨res, fetches⟩
  cases res with
  | error e' => simp [hm, hkey, createResponse]
  | ok key => simp [hm, hkey, hp, hv, createResponse]

/-- Witness for C5 at a concrete request whose body omits `message`. -/
theorem handler_missing_fields_500_witness :
    evMissingField.method ≠ "OPTIONS" ∧
    parseEventBody rtGood evMissingField =
      .ok (.obj [("name", .str "Alice"), ("email", .str "a@example.com")]) ∧
    truthy (getProp (.obj [("name", .str "Alice"),
        ("email", .str "a@example.com")]) "message") = false ∧
    ((handler rtGood evMissingField).1.statusCode = 500 ∧
     (handler rtGood evMissingField).1.body.error ≠ none ∧
     (handler rtGood evMissingField).2.emailCalls = []) :=
  ⟨by decide, rfl, rfl,
   handler_missing_fields_500 rtGood evMissingField
     (.obj [("name", .str "Alice"), ("email", .str "a@example.com")])
     (by decide) rfl (Or.inr (Or.inr rfl))⟩

/-- C6: `parseEventBody` dispatches on the shape of the body: a string
body is handed to `JSON.parse` (and a parse failure on a non-OPTIONS
request yields a 500 response); an object body is returned directly; a
body of any other shape (neither `typeof` string nor object, e.g. a
number) yields the error "Invalid event body" and, on a non-OPTIONS
request, a 500 response. -/
theorem parseEventBody_case_analysis (rt : Runtime) (ev : Event) :
    (∀ s, ev.body = .str s → parseEventBody rt ev = rt.jsonParse s) ∧
    (∀ s e, ev.body = .str s → rt.jsonParse s = .error e →
        ev.method ≠ "OPTIONS" → (handler rt ev).1.statusCode = 500) ∧
    (∀ fields, ev.body = .obj fields →
        parseEventBody rt ev = .ok (.obj fields)) ∧
    (typeofJS ev.body ≠ "string" → typeofJS ev.body ≠ "object" →
        parseEventBody rt ev = .error (.jsError "Invalid event body") ∧
        (ev.method ≠ "OPTIONS" → (handler rt ev).1.statusCode = 500)) := by
  refine ⟨?_, ?_, ?_, ?_⟩
  · intro s hb
    unfold parseEventBody
    rw [hb]
  · intro s e hb hj hm
    have hp : parseEventBody rt ev = .error e := by
      unfold parseEventBody
      rw [hb]
      exact hj
    exact (handler_500_of_parse_error rt ev e hm hp).1
  · intro fields hb
    unfold parseEventBody
    rw [hb]
  · intro hs ho
    have hp : parseEventBody rt ev = .error (.jsError "Invalid event body") := by
      unfold parseEventBody
      cases hb : ev.body with
      | undefined => rfl
      | null => rw [hb] at ho; simp [typeofJS] at ho
      | bool b => rfl
      | num i => rfl
      | str s => rw [hb] at hs; simp [typeofJS] at hs
      | obj fields => rw [hb] at ho; simp [typeofJS] at ho
    exact ⟨hp, fun hm => (handler_500_of_parse_error rt ev _ hm hp).1⟩

/-- Witness for C6: a malformed JSON string body, an object body, and a
numeric body, each at a concrete request. -/
theorem parseEventBody_case_analysis_witness :
    parseEventBody rtGood evBadJson = rtGood.jsonParse "\x7bnot json" ∧
    (handler rtGood evBadJson).1.statusCode = 500 ∧
    parseEventBody rtGood evValid =
      .ok (.obj [("name", .str "Alice"), ("email", .str "a@example.com"),
                 ("message", .str "hi")]) ∧
    parseEventBody rtGood evNum = .error (.jsError "Invalid event body") ∧
    (handler rtGood evNum).1.statusCode = 500 :=
  ⟨(parseEventBody_case_analysis rtGood evBadJson).1 "\x7bnot json" rfl,
   (parseEventBody_case_analysis rtGood evBadJson).2.1 "\x7bnot json"
     (.jsError "Unexpected token o in JSON") rfl rfl (by decide),
   (parseEventBody_case_analysis rtGood evValid).2.2.1
     [("name", .str "Alice"), ("email", .str "a@example.com"),
      ("message", .str "hi")] rfl,
   ((parseEventBody_case_analysis rtGood evNum).2.2.2 (by decide) (by decide)).1,
   ((parseEventBody_case_analysis rtGood evNum).2.2.2 (by decide)
     (by decide)).2 (by decide)⟩

/-- C7: On a valid non-OPTIONS request with working collaborators, one
invocation calls the email API exactly once (never zero times, never
twice), and a second invocation of the same request dispatches again: the
two stateless invocations together make exactly two calls, with no
deduplication. -/
theorem email_dispatched_exactly_once (rt : Runtime) (ev : Event)
    (n key r : String) (fields : List (String × JSValue)) (s1 s2 s3 : String)
    (hm : ev.method ≠ "OPTIONS")
    (hname : rt.resendApiKeySecretName = some n) (hne : n ≠ "")
    (hsec : rt.getSecretValue n = .ok key)
    (hp : parseEventBody rt ev = .ok (.obj fields))
    (h1 : lookupProp fields "name" = .str s1) (h1n : s1 ≠ "")
    (h2 : lookupProp fields "email" = .str s2) (h2n : s2 ≠ "")
    (h3 : lookupProp fields "message" = .str s3) (h3n : s3 ≠ "")
    (hsend : rt.resendSend key (emailPayloadOf (.obj fields)) = .ok r) :
    (handler rt ev).2.emailCalls = [emailPayloadOf (.obj fields)] ∧
    (handler rt ev).2.emailCalls.length = 1 ∧
    ((handler rt ev).2.emailCalls ++ (handler rt ev).2.emailCalls).length = 2 := by
  rw [handler_valid_request_eq rt ev n key r fields s1 s2 s3 hm hname hne hsec hp
    h1 h1n h2 h2n h3 h3n hsend]
  exact ⟨rfl, rfl, rfl⟩

/-- Witness for C7 at the concrete valid request and working runtime. -/
theorem email_dispatched_exactly_once_witness :
    evValid.method ≠ "OPTIONS" ∧
    ((handler rtGood evValid).2.emailCalls.length = 1 ∧
     ((handler rtGood evValid).2.emailCalls
       ++ (handler rtGood evValid).2.emailCalls).length = 2) :=
  ⟨by decide,
   (email_dispatched_exactly_once rtGood evValid "resend-api-key" "re_testkey"
     "email-id-1"
     [("name", .str "Alice"), ("email", .str "a@example.com"),
      ("message", .str "hi")]
     "Alice" "a@example.com" "hi" (by decide) rfl (by decide) rfl rfl rfl
     (by decide) rfl (by decide) rfl (by decide) rfl).2⟩

/-- C8: Every response the handler returns carries exactly the two fixed
headers `Access-Control-Allow-Headers: Content-Type` and
`Access-Control-Allow-Methods: POST, OPTIONS`; in particular, no response
ever carries an `Access-Control-Allow-Origin` header, whatever the
request's `origin`/`Origin` header holds. -/
theorem response_headers_fixed (rt : Runtime) (ev : Event) :
    (handler rt ev).1.headers =
      [("Access-Control-Allow-Headers", "Content-Type"),
       ("Access-Control-Allow-Methods", "POST, OPTIONS")] ∧
    ∀ v : String,
      ("Access-Control-Allow-Origin", v) ∉ (handler rt ev).1.headers := by
  have hh : (handler rt ev).1.headers =
      [("Access-Control-Allow-Headers", "Content-Type"),
       ("Access-Control-Allow-Methods", "POST, OPTIONS")] := by
    unfold handler
    split
    · rfl
    · rcases hkey : getResendApiKey rt with ⟨res, fetches⟩
      cases res with
      | error e => rfl
      | ok key =>
          cases hp : parseEventBody rt ev with
          | error e => simp [hp, createResponse]
          | ok body =>
              cases hv : validateBody body with
              | error e => simp [hp, hv, createResponse]
              | ok vb =>
                  rcases hs : sendEmail rt key vb with ⟨sres, calls⟩
                  cases sres with
                  | ok r => simp [hp, hv, hs, createResponse]
                  | error e => simp [hp, hv, hs, createResponse]
  refine ⟨hh, ?_⟩
  intro v hv
  rw [hh] at hv
  simp only [List.mem_cons, List.not_mem_nil, or_false, Prod.mk.injEq] at hv
  rcases hv with ⟨h, _⟩ | ⟨h, _⟩ <;> exact absurd h (by decide)

/-- C9: `validateBody` accepts any truthy field values, not only
non-empty strings: when the parsed body is an object whose `name`,
`email` and `message` are truthy values of any type (numbers, booleans),
validation succeeds and the handler proceeds to dispatch the email. -/
theorem validateBody_accepts_truthy_values (rt : Runtime) (ev : Event)
    (n key : String) (fields : List (String × JSValue))
    (hm : ev.method ≠ "OPTIONS")
    (hname : rt.resendApiKeySecretName = some n) (hne : n ≠ "")
    (hsec : rt.getSecretValue n = .ok key)
    (hp : parseEventBody rt ev = .ok (.obj fields))
    (t1 : truthy (lookupProp fields "name") = true)
    (t2 : truthy (lookupProp fields "email") = true)
    (t3 : truthy (lookupProp fields "message") = true) :
    validateBody (.obj fields) = .ok (.obj fields) ∧
    (handler rt ev).2.emailCalls = [emailPayloadOf (.obj fields)] := by
  have hv : validateBody (.obj fields) = .ok (.obj fields) := by
    unfold validateBody
    simp [getProp, t1, t2, t3]
  refine ⟨hv, ?_⟩
  have hkey := getResendApiKey_ok rt n key hname hne hsec
  unfold handler
  cases hs : rt.resendSend key (emailPayloadOf (.obj fields)) with
  | ok r => simp [hm, hkey, hp, hv, sendEmail, hs]
  | error e => simp [hm, hkey, hp, hv, sendEmail, hs]

/-- Witness for C9 at a concrete body whose fields are numbers and a
boolean. -/
theorem validateBody_accepts_truthy_values_witness :
    truthy (lookupProp [("name", JSValue.num 1), ("email", JSValue.num 42),
        ("message", JSValue.bool true)] "name") = true ∧
    (validateBody (.obj [("name", JSValue.num 1), ("email", JSValue.num 42),
        ("message", JSValue.bool true)]) =
      .ok (.obj [("name", JSValue.num 1), ("email", JSValue.num 42),
        ("message", JSValue.bool true)]) ∧
     (handler rtGood evTruthyNums).2.emailCalls =
      [emailPayloadOf (.obj [("name", JSValue.num 1), ("email", JSValue.num 42),
        ("message", JSValue.bool true)])]) :=
  ⟨by decide,
   validateBody_accepts_truthy_values rtGood evTruthyNums "resend-api-key"
     "re_testkey"
     [("name", JSValue.num 1), ("email", JSValue.num 42),
      ("message", JSValue.bool true)]
     (by decide) rfl (by decide) rfl rfl (by decide) (by decide) (by decide)⟩

/-- C10: A `null` body is accepted by `parseEventBody` on the object
branch (JavaScript `typeof null` is `"object"`), not rejected with the
error "Invalid event body"; with a working secret store, the invocation
still ends in a 500 response, but its error is the destructuring
`TypeError` from the validation step, the parse step having run and
succeeded, and no email is dispatched. -/
theorem null_body_passes_parse (rt : Runtime) (ev : Event) (n key : String)
    (hb : ev.body = .null) (hm : ev.method ≠ "OPTIONS")
    (hname : rt.resendApiKeySecretName = some n) (hne : n ≠ "")
    (hsec : rt.getSecretValue n = .ok key) :
    parseEventBody rt ev = .ok .null ∧
    validateBody .null =
      .error (.typeError "Cannot destructure property name of null") ∧
    (handler rt ev).1.statusCode = 500 ∧
    (handler rt ev).1.body.error =
      some "TypeError: Cannot destructure property name of null" ∧
    (handler rt ev).2.parseAttempts = 1 ∧
    (handler rt ev).2.emailCalls = [] := by
  have hp : parseEventBody rt ev = .ok .null := by
    unfold parseEventBody
    rw [hb]
  have hkey := getResendApiKey_ok rt n key hname hne hsec
  refine ⟨hp, rfl, ?_⟩
  unfold handler
  simp [hm, hkey, hp, validateBody, createResponse, JsError.render]

/-- Witness for C10 at the concrete null-body request. -/
theorem null_body_passes_parse_witness :
    evNull.body = JSValue.null ∧ evNull.method ≠ "OPTIONS" ∧
    (parseEventBody rtGood evNull = .ok .null ∧
     (handler rtGood evNull).1.statusCode = 500 ∧
     (handler rtGood evNull).1.body.error =
      some "TypeError: Cannot destructure property name of null" ∧
     (handler rtGood evNull).2.emailCalls = []) :=
  ⟨rfl, by decide,
   (null_body_passes_parse rtGood evNull "resend-api-key" "re_testkey" rfl
     (by decide) rfl (by decide) rfl).1,
   (null_body_passes_parse rtGood evNull "resend-api-key" "re_testkey" rfl
     (by decide) rfl (by decide) rfl).2.2.1,
   (null_body_passes_parse rtGood evNull "resend-api-key" "re_testkey" rfl
     (by decide) rfl (by decide) rfl).2.2.2.1,
   (null_body_passes_parse rtGood evNull "resend-api-key" "re_testkey" rfl
     (by decide) rfl (by decide) rfl).2.2.2.2.2⟩

end ContactHandler
